import Mathlib

/-!
Verification development for the AquaBill invoicing application
(src/src/app/page.tsx).  The domain logic of the page — clock-time
parsing, duration calculation, invoice creation/edit, customer delete,
and settings import — is embedded shallowly below; JavaScript numbers
that may be NaN are modelled as `Option Int` / `Option ℚ` with `none`
standing for NaN, and decimal arithmetic is modelled exactly over `ℚ`.
-/

namespace AquaBill

/-- Reads a list of decimal digit characters as a natural number.
Returns `none` when the list is empty or contains a non-digit, matching
the cases where the JavaScript `Number` conversion of the corresponding
nonempty string yields NaN. -/
def digitsToNat (cs : List Char) : Option Nat :=
  match cs with
  | [] => none
  | _ =>
    cs.foldl
      (fun acc c =>
        match acc with
        | none => none
        | some n => if c.isDigit then some (n * 10 + (c.toNat - 48)) else none)
      (some 0)

/-- Embeds the JavaScript `Number(s)` conversion used by
`parseTimeToMinutes` (page.tsx line 57, `.map(Number)`), restricted to
the finite-or-NaN fragment of the JS number domain: the empty string
converts to 0, an optional minus sign followed by decimal digits
converts to the signed integer value, and every other string converts to
NaN (`none`).  This restriction collapses strings that JS converts to
the infinities (such as "Infinity") into NaN; `jsNumberFull` below is
the embedding over the full domain including the infinities, and the
theorems proved over this restricted version either hypothesise a finite
parse result or evaluate strings on which the two agree. -/
def jsNumber (cs : List Char) : Option Int :=
  match cs with
  | [] => some 0
  | '-' :: rest => (digitsToNat rest).map (fun n => -(n : Int))
  | _ => (digitsToNat cs).map (fun n => (n : Int))

/-- Embeds `timeStr.split(':')` (page.tsx line 57): splits a character
list on every colon, keeping empty pieces, and always returns at least
one piece. -/
def splitColon : List Char → List (List Char)
  | [] => [[]]
  | c :: rest =>
    if c = ':' then [] :: splitColon rest
    else
      match splitColon rest with
      | [] => [[c]]
      | p :: ps => (c :: p) :: ps

/-- Embeds `parseTimeToMinutes` (page.tsx lines 55-59).  The argument is
`Option String` with `none` for the JavaScript `undefined`; the result is
`Option Int` with `none` for NaN.  The source destructures
`const [h, m] = timeStr.split(':').map(Number)` and returns
`h * 60 + m`; when the split yields a single piece, `m` is `undefined`
and the arithmetic yields NaN, and NaN in either operand propagates. -/
def parseTimeToMinutes (timeStr : Option String) : Option Int :=
  match timeStr with
  | none => some 0
  | some s =>
    if s = "" then some 0
    else
      let parts := splitColon s.data
      let h := jsNumber (parts.headD [])
      let m :=
        match parts with
        | _ :: p2 :: _ => jsNumber p2
        | _ => none
      match h, m with
      | some hv, some mv => some (hv * 60 + mv)
      | _, _ => none

/-- Embeds `minutesBetween` (page.tsx lines 61-67) over the
finite-or-NaN fragment: parses both clock strings, returns 0 when
either parse is NaN, otherwise computes
`e >= s ? e - s : e + 24 * 60 - s` and clamps with `Math.max(0, diff)`.
On inputs whose parses are finite or NaN this is the program's
behaviour; inputs that parse to an infinity escape the NaN guard in the
real program and are treated by `minutesBetweenJS` below. -/
def minutesBetween (start finish : Option String) : Int :=
  match parseTimeToMinutes start, parseTimeToMinutes finish with
  | some s, some e => max 0 (if e ≥ s then e - s else e + 24 * 60 - s)
  | _, _ => 0

/-- A JavaScript number as produced by `Number` and IEEE arithmetic on
clock strings: NaN, one of the two infinities, or a finite value.  The
finite values arising here are integers, so the finite case carries an
`Int`. -/
inductive JsNum where
  | nan : JsNum
  | posInf : JsNum
  | negInf : JsNum
  | int : Int → JsNum
  deriving DecidableEq, Repr

/-- Embeds the JavaScript `Number(s)` conversion over the full number
domain including the infinities: the empty string converts to 0,
"Infinity" and "-Infinity" convert to the infinities, an optional minus
sign followed by decimal digits converts to the signed integer value,
and every other string converts to NaN.  On strings over the alphabet
of decimal digits, the minus sign and the letters of "Infinity" this is
exactly JS `Number`; decimal points, exponents, hex prefixes, plus
signs, whitespace and digit strings too long to be exact in a double
are outside the modelled fragment. -/
def jsNumberFull (cs : List Char) : JsNum :=
  if cs = [] then .int 0
  else if cs = "Infinity".data then .posInf
  else if cs = "-Infinity".data then .negInf
  else
    match cs with
    | '-' :: rest =>
      match digitsToNat rest with
      | some n => .int (-(n : Int))
      | none => .nan
    | _ =>
      match digitsToNat cs with
      | some n => .int (n : Int)
      | none => .nan

/-- JS multiplication by the positive literal 60 (`h * 60`). -/
def jsMul60 : JsNum → JsNum
  | .nan => .nan
  | .posInf => .posInf
  | .negInf => .negInf
  | .int a => .int (a * 60)

/-- JS addition: NaN absorbs, opposite infinities give NaN, an infinity
absorbs a finite operand. -/
def jsAdd : JsNum → JsNum → JsNum
  | .nan, _ => .nan
  | _, .nan => .nan
  | .posInf, .negInf => .nan
  | .posInf, _ => .posInf
  | .negInf, .posInf => .nan
  | .negInf, _ => .negInf
  | .int _, .posInf => .posInf
  | .int _, .negInf => .negInf
  | .int a, .int b => .int (a + b)

/-- JS subtraction: NaN absorbs, an infinity minus itself gives NaN. -/
def jsSub : JsNum → JsNum → JsNum
  | .nan, _ => .nan
  | _, .nan => .nan
  | .posInf, .posInf => .nan
  | .posInf, _ => .posInf
  | .negInf, .negInf => .nan
  | .negInf, _ => .negInf
  | .int _, .posInf => .negInf
  | .int _, .negInf => .posInf
  | .int a, .int b => .int (a - b)

/-- The JS comparison `x >= y`: false whenever either side is NaN, and
the usual order on the extended line otherwise (an infinity compares
greater-or-equal to itself). -/
def jsGe : JsNum → JsNum → Bool
  | .nan, _ => false
  | _, .nan => false
  | .posInf, _ => true
  | .negInf, .negInf => true
  | .negInf, _ => false
  | .int _, .posInf => false
  | .int _, .negInf => true
  | .int a, .int b => decide (a ≥ b)

/-- `Math.max(0, x)`: NaN propagates, negative infinity clamps to 0. -/
def jsMax0 : JsNum → JsNum
  | .nan => .nan
  | .posInf => .posInf
  | .negInf => .int 0
  | .int a => .int (max 0 a)

/-- The JS `isNaN` predicate on an already-converted number. -/
def jsIsNaN : JsNum → Bool
  | .nan => true
  | _ => false

/-- Embeds `parseTimeToMinutes` (page.tsx lines 55-59) over the full JS
number domain, including the infinities: identical to
`parseTimeToMinutes` except that the split pieces are converted by
`jsNumberFull` and the arithmetic `h * 60 + m` is IEEE arithmetic (a
missing second piece is `undefined`, which is NaN in arithmetic). -/
def parseTimeToMinutesJS (timeStr : Option String) : JsNum :=
  match timeStr with
  | none => .int 0
  | some s =>
    if s = "" then .int 0
    else
      let parts := splitColon s.data
      let h := jsNumberFull (parts.headD [])
      let m :=
        match parts with
        | _ :: p2 :: _ => jsNumberFull p2
        | _ => .nan
      jsAdd (jsMul60 h) m

/-- Embeds `minutesBetween` (page.tsx lines 61-67) over the full JS
number domain: parses both clock strings, returns 0 when either parse
is NaN, otherwise computes `e >= s ? e - s : e + 24 * 60 - s` and
returns `Math.max(0, diff)`.  A parse result of Infinity passes the
`isNaN` guard, so the result can be NaN (Infinity minus Infinity) or
Infinity. -/
def minutesBetweenJS (start finish : Option String) : JsNum :=
  let s := parseTimeToMinutesJS start
  let e := parseTimeToMinutesJS finish
  if jsIsNaN s || jsIsNaN e then .int 0
  else jsMax0 (if jsGe e s then jsSub e s else jsSub (jsAdd e (.int (24 * 60))) s)

/-- Embeds `roundAbout` (page.tsx line 69), i.e. JavaScript
`Math.round`, over exact rationals: round to the nearest integer with
ties toward positive infinity, which is `⌊q + 1/2⌋`. -/
def roundAbout (q : ℚ) : Int := (q + 1 / 2).floor

/-- The invoice record persisted by the create form (page.tsx lines
824-834).  Clock times are kept in their string form as stored;
`ratePerMinute` is an exact decimal; the monetary fields are the rounded
integers the source stores.  The opaque `createdAt` / `updatedAt`
timestamps added by `addInvoice` / `updateInvoice` are wall-clock
metadata and are not modelled. -/
structure Invoice where
  customerId : String
  date : String
  startTime : Option String
  endTime : Option String
  ratePerMinute : ℚ
  durationMinutes : Int
  totalCost : Int
  amountReceived : Int
  amountPending : Int
  deriving DecidableEq, Repr

/-- Embeds the `InvoiceForm` submit handler (page.tsx lines 818-836).
It returns early when no customer is selected; otherwise it computes
`mins = minutesBetween(startTime, endTime)`,
`totalCost = roundAbout(mins * ratePerMinute)`,
`received = roundAbout(Number(amountReceived) || 0)` (`none` models a
non-numeric NaN, which `|| 0` turns into 0), and submits the payload with
`amountPending: totalCost - received`.  No validation of
`ratePerMinute` is performed on this path. -/
def invoiceFormSubmit (customerId : Option String) (date : String)
    (startTime endTime : Option String) (ratePerMinute : ℚ)
    (amountReceived : Option ℚ) : Option Invoice :=
  match customerId with
  | none => none
  | some cid =>
    let mins := minutesBetween startTime endTime
    let total := (mins : ℚ) * ratePerMinute
    let totalCost := roundAbout total
    let received := roundAbout (amountReceived.getD 0)
    some
      { customerId := cid
        date := date
        startTime := startTime
        endTime := endTime
        ratePerMinute := ratePerMinute
        durationMinutes := mins
        totalCost := totalCost
        amountReceived := received
        amountPending := totalCost - received }

/-- The update object built by `EditInvoiceForm.handleSave` and passed to
`updateInvoice` (page.tsx lines 1043-1052). -/
structure InvoiceUpdate where
  date : String
  startTime : Option String
  endTime : Option String
  ratePerMinute : ℚ
  amountReceived : Int
  durationMinutes : Int
  totalCost : Int
  amountPending : Int
  deriving DecidableEq, Repr

/-- Embeds `EditInvoiceForm.handleSave` (page.tsx lines 1027-1053).  The
rate is `Option ℚ` with `none` for NaN: the source rejects with an alert
when `isNaN(ratePerMinute) || ratePerMinute <= 0` and returns without
saving (`none` here).  The preceding `isNaN(newMins)` guard is
unreachable in the finite-or-NaN fragment, where `minutesBetween` has
codomain `Int`; in full JS it fires exactly when the times parse to
infinities (see `minutesBetweenJS`), which only rejects additional
saves, so theorems conditional on a successful save are unaffected by
its omission here.  On success it saves
`durationMinutes`, `totalCost = roundAbout(newMins * ratePerMinute)`,
`amountReceived = roundAbout(Number(amountReceived) || 0)` and
`amountPending = newTotal - newReceived` together. -/
def handleSave (date : String) (startTime endTime : Option String)
    (ratePerMinute : Option ℚ) (amountReceived : Option ℚ) :
    Option InvoiceUpdate :=
  let newMins := minutesBetween startTime endTime
  match ratePerMinute with
  | none => none
  | some r =>
    if r ≤ 0 then none
    else
      let newTotal := roundAbout ((newMins : ℚ) * r)
      let newReceived := roundAbout (amountReceived.getD 0)
      some
        { date := date
          startTime := startTime
          endTime := endTime
          ratePerMinute := r
          amountReceived := newReceived
          durationMinutes := newMins
          totalCost := newTotal
          amountPending := newTotal - newReceived }

/-- Embeds `updateInvoice` (page.tsx lines 173-180) applied to a stored
invoice: the Firestore update spreads every field of the update object
over the stored document (plus an unmodelled `updatedAt` timestamp), so
every field carried by the update replaces the stored one and only
`customerId` survives from the old record. -/
def updateInvoice (inv : Invoice) (u : InvoiceUpdate) : Invoice :=
  { customerId := inv.customerId
    date := u.date
    startTime := u.startTime
    endTime := u.endTime
    ratePerMinute := u.ratePerMinute
    durationMinutes := u.durationMinutes
    totalCost := u.totalCost
    amountReceived := u.amountReceived
    amountPending := u.amountPending }

/-- The three derived invoice fields are mutually consistent with the
stored inputs: duration is recomputed from the stored clock strings,
total from duration and rate, pending from total and received. -/
def derivedConsistent (i : Invoice) : Prop :=
  i.durationMinutes = minutesBetween i.startTime i.endTime ∧
  i.totalCost = roundAbout ((i.durationMinutes : ℚ) * i.ratePerMinute) ∧
  i.amountPending = i.totalCost - i.amountReceived

/-- The same consistency over an edit-save update object. -/
def updateConsistent (u : InvoiceUpdate) : Prop :=
  u.durationMinutes = minutesBetween u.startTime u.endTime ∧
  u.totalCost = roundAbout ((u.durationMinutes : ℚ) * u.ratePerMinute) ∧
  u.amountPending = u.totalCost - u.amountReceived

/-- The invoice produced by the create form for Scenario A of the spec:
08:00 to 09:00 at rate 16.666 with amount received 0. -/
def scenarioAInvoice : Invoice :=
  ⟨"c1", "2024-01-01", some "08:00", some "09:00", 16666 / 1000,
    60, 1000, 0, 1000⟩

/-- The invoice produced by the create form for Scenario D of the spec:
totalCost 1000 with amount received 1200, hence pending -200. -/
def scenarioDInvoice : Invoice :=
  ⟨"c1", "2024-01-01", some "08:00", some "09:00", 16666 / 1000,
    60, 1000, 1200, -200⟩

/-- The invoice produced by the create form at integer rate 10 with a
non-numeric amount received. -/
def rate10Invoice : Invoice :=
  ⟨"c1", "2024-01-01", some "08:00", some "09:00", 10, 60, 600, 0, 600⟩

/-- A customer document in the per-user `customers` collection. -/
structure Customer where
  id : String
  name : String
  contact : String
  deriving DecidableEq, Repr

/-- An invoice document, tagged with the id of the customer under whose
subcollection it is stored. -/
structure StoredInvoice where
  id : String
  customerId : String
  deriving DecidableEq, Repr

/-- The relevant slice of the Firestore store for one user: the customer
documents and all invoice documents across the per-customer
subcollections. -/
structure Store where
  customers : List Customer
  invoices : List StoredInvoice
  deriving DecidableEq, Repr

/-- Embeds `deleteCustomer` (page.tsx lines 152-160).  The source
deletes only the customer document — its own comment reads "A more
complex implementation (e.g., a cloud function) is needed to delete
subcollections. For now, we will just delete the customer document." —
and in Firestore deleting a document does not delete the documents of
its subcollections, so the invoice documents are left untouched. -/
def deleteCustomer (st : Store) (cid : String) : Store :=
  { customers := st.customers.filter (fun c => c.id != cid)
    invoices := st.invoices }

/-- A store holding one customer and one invoice owned by it. -/
def orphanStore : Store :=
  ⟨[⟨"c1", "Ali Khan", "0300-1234567"⟩], [⟨"i1", "c1"⟩]⟩

/-- A JSON value stored in the settings document; numbers and strings
are the only shapes the settings schema and the claims use. -/
inductive JVal where
  | num : ℚ → JVal
  | str : String → JVal
  deriving DecidableEq, Repr

/-- A flat JSON document as an association list of fields. -/
abbrev SettingsDoc : Type := List (String × JVal)

/-- Reads a field of a document (first binding wins). -/
def docGet (d : SettingsDoc) (k : String) : Option JVal :=
  (d.find? (fun p => p.1 == k)).map Prod.snd

/-- Modelled from the spec: the persistence collaborator's
`update(docRef, partialRecord)` operation (§6) — invoked by
`updateSettings` (page.tsx lines 188-191) as
`setDocumentNonBlocking(settingsRef, newSettings, { merge: true })`,
whose implementation lives outside src/ — writes every field of the
partial record over the stored document and keeps the stored fields the
record does not mention (a shallow merge). -/
def setMergeDoc (stored updates : SettingsDoc) : SettingsDoc :=
  stored.filter (fun p => (updates.find? (fun q => q.1 == p.1)).isNone)
    ++ updates

/-- Embeds `importSettings` (page.tsx lines 204-216).  The JSON parse of
the file is external; its outcome is the `Option SettingsDoc` argument,
`none` for an unparseable file.  On success the parsed object is passed
verbatim — no key filtering — to `updateSettings` and the alert
"Settings imported." is shown; on parse failure nothing is written and
the blocking alert "Invalid settings file." is shown.  The result pairs
the settings document after the operation with the alert text. -/
def importSettings (parsed : Option SettingsDoc) (stored : SettingsDoc) :
    SettingsDoc × String :=
  match parsed with
  | some obj => (setMergeDoc stored obj, "Settings imported.")
  | none => (stored, "Invalid settings file.")

/-! Sanity checks on concrete inputs. -/

example : parseTimeToMinutes (some "14:35") = some 875 := by decide
example : parseTimeToMinutes (some "08:00") = some 480 := by decide
example : minutesBetween (some "23:30") (some "00:15") = 45 := by decide
example : minutesBetween (some "48:00") (some "00:00") = 0 := by decide

/-! Helper lemmas. -/

/-- Evaluates the create form on the Scenario A inputs. -/
lemma scenarioA_create :
    invoiceFormSubmit (some "c1") "2024-01-01" (some "08:00") (some "09:00")
      (16666 / 1000) (some 0) = some scenarioAInvoice := by
  have hm : minutesBetween (some "08:00") (some "09:00") = 60 := by decide
  simp only [invoiceFormSubmit, hm, roundAbout, Option.getD, scenarioAInvoice,
    Option.some.injEq, Invoice.mk.injEq]
  norm_num [Rat.floor_def']

/-- Evaluates the create form on the Scenario D inputs. -/
lemma scenarioD_create :
    invoiceFormSubmit (some "c1") "2024-01-01" (some "08:00") (some "09:00")
      (16666 / 1000) (some 1200) = some scenarioDInvoice := by
  have hm : minutesBetween (some "08:00") (some "09:00") = 60 := by decide
  simp only [invoiceFormSubmit, hm, roundAbout, Option.getD, scenarioDInvoice,
    Option.some.injEq, Invoice.mk.injEq]
  norm_num [Rat.floor_def']

/-- Evaluates the create form at rate 10 with a non-numeric received
amount. -/
lemma rate10_create :
    invoiceFormSubmit (some "c1") "2024-01-01" (some "08:00") (some "09:00")
      10 none = some rate10Invoice := by
  have hm : minutesBetween (some "08:00") (some "09:00") = 60 := by decide
  simp only [invoiceFormSubmit, hm, roundAbout, Option.getD, rate10Invoice,
    Option.some.injEq, Invoice.mk.injEq]
  norm_num [Rat.floor_def']

/-- Finding over an append tries the left list first. -/
lemma find?_append_eq {α : Type} (p : α → Bool) (l₁ l₂ : List α) :
    (l₁ ++ l₂).find? p =
      match l₁.find? p with
      | some a => some a
      | none => l₂.find? p := by
  induction l₁ with
  | nil => simp [List.find?]
  | cons a tl ih =>
    cases hp : p a with
    | true => simp [List.find?, hp]
    | false => simp [List.find?, hp, ih]

/-- Filtering by a weaker predicate does not change the first match of a
stronger one. -/
lemma find?_filter_eq {α : Type} (p q : α → Bool) (l : List α)
    (h : ∀ a, p a = true → q a = true) :
    (l.filter q).find? p = l.find? p := by
  induction l with
  | nil => rfl
  | cons a tl ih =>
    cases hq : q a with
    | true =>
      rw [List.filter_cons_of_pos hq]
      cases hp : p a with
      | true => simp [List.find?, hp]
      | false => simp [List.find?, hp, ih]
    | false =>
      have hp : p a = false := by
        cases hpa : p a with
        | false => rfl
        | true => rw [h a hpa] at hq; exact absurd hq (by simp)
      rw [List.filter_cons_of_neg (by simp [hq])]
      simp [List.find?, hp, ih]

/-- Reading a field after a merge: fields of the update win, all other
fields come from the stored document. -/
lemma docGet_setMergeDoc (d u : SettingsDoc) (k : String) :
    docGet (setMergeDoc d u) k =
      match docGet u k with
      | some v => some v
      | none => docGet d k := by
  unfold docGet setMergeDoc
  rw [find?_append_eq]
  cases hu : u.find? (fun p => p.1 == k) with
  | some pv =>
    have hnone :
        (d.filter fun p => ((u.find? fun q => q.1 == p.1).isNone)).find?
          (fun p => p.1 == k) = none := by
      rw [List.find?_eq_none]
      intro x hx
      rcases List.mem_filter.mp hx with ⟨_, hpred⟩
      intro hxk
      have hxk' : x.1 = k := by simpa using hxk
      rw [hxk', hu] at hpred
      simp at hpred
    rw [hnone]
    simp [hu]
  | none =>
    have himp : ∀ p : String × JVal, (p.1 == k) = true →
        ((u.find? fun q => q.1 == p.1).isNone) = true := by
      intro p hp
      have hp' : p.1 = k := by simpa using hp
      rw [hp', hu]
      rfl
    rw [find?_filter_eq _ _ _ himp]
    cases hd : d.find? (fun p => p.1 == k) <;> simp [hd]

/-- A colon-free list splits into itself. -/
lemma splitColon_eq_single (l : List Char) (h : ∀ c ∈ l, c ≠ ':') :
    splitColon l = [l] := by
  induction l with
  | nil => rfl
  | cons c tl ih =>
    have hc : c ≠ ':' := h c (by simp)
    have htl : ∀ x ∈ tl, x ≠ ':' := fun x hx => h x (by simp [hx])
    unfold splitColon
    rw [if_neg hc, ih htl]

/-- Splitting at the first colon of a colon-free prefix. -/
lemma splitColon_append (hs ms : List Char) (h : ∀ c ∈ hs, c ≠ ':') :
    splitColon (hs ++ ':' :: ms) = hs :: splitColon ms := by
  induction hs with
  | nil =>
    show splitColon (':' :: ms) = [] :: splitColon ms
    simp only [splitColon, if_true]
  | cons c tl ih =>
    have hc : c ≠ ':' := h c (by simp)
    have htl : ∀ x ∈ tl, x ≠ ':' := fun x hx => h x (by simp [hx])
    show splitColon (c :: (tl ++ ':' :: ms)) = (c :: tl) :: splitColon ms
    simp only [splitColon]
    rw [if_neg hc, ih htl]

/-- On a nonempty all-digit list, `jsNumber` is the digit value. -/
lemma jsNumber_of_digits (l : List Char) (n : Nat)
    (hd : digitsToNat l = some n) (hdig : ∀ c ∈ l, c.isDigit = true) :
    jsNumber l = some (n : Int) := by
  cases l with
  | nil => simp [digitsToNat] at hd
  | cons c tl =>
    have hc : c.isDigit = true := hdig c (by simp)
    have hcm : c ≠ '-' := by
      intro e
      rw [e] at hc
      exact absurd hc (by decide)
    unfold jsNumber
    split
    · simp_all
    · simp_all
    · rw [hd]
      rfl

/-- Whenever `Math.max(0, x)` is a finite number, it is nonnegative. -/
lemma jsMax0_int_nonneg (x : JsNum) (n : Int)
    (h : jsMax0 x = JsNum.int n) : 0 ≤ n := by
  cases x with
  | nan => simp [jsMax0] at h
  | posInf => simp [jsMax0] at h
  | negInf =>
    simp [jsMax0] at h
    omega
  | int a =>
    simp [jsMax0] at h
    omega

/-! Claim theorems. -/

/-- Claim C1: for every pair of start/end clock-time strings whose
parses succeed, the computed duration is end-minutes minus start-minutes
when end-minutes is at least start-minutes, and that difference plus
1440 otherwise, clamped to be nonnegative; and when start equals end the
duration is 0, not 1440. -/
theorem duration_formula :
    (∀ (a b : Option String) (s e : Int),
        parseTimeToMinutes a = some s → parseTimeToMinutes b = some e →
        minutesBetween a b = max 0 (if s ≤ e then e - s else e - s + 1440)) ∧
    (∀ t : Option String, minutesBetween t t = 0) := by
  constructor
  · intro a b s e ha hb
    have hmb : minutesBetween a b =
        max 0 (if e ≥ s then e - s else e + 24 * 60 - s) := by
      unfold minutesBetween
      rw [ha, hb]
    rw [hmb]
    simp only [ge_iff_le]
    rcases le_or_lt s e with hc | hc
    · rw [if_pos hc, if_pos hc]
    · have hc' : ¬ s ≤ e := not_le.mpr hc
      rw [if_neg hc', if_neg hc']
      congr 1
      ring
  · intro t
    cases h : parseTimeToMinutes t with
    | none =>
      unfold minutesBetween
      rw [h]
    | some s =>
      have hmb : minutesBetween t t =
          max 0 (if s ≥ s then s - s else s + 24 * 60 - s) := by
        unfold minutesBetween
        rw [h]
      rw [hmb]
      simp

/-- Witness for C1 at the concrete overnight pair 23:30 to 00:15 and at
the equal pair 10:00 to 10:00. -/
theorem duration_formula_witness :
    minutesBetween (some "23:30") (some "00:15") =
      max 0 (if (1410 : Int) ≤ 15 then 15 - 1410 else 15 - 1410 + 1440) ∧
    minutesBetween (some "10:00") (some "10:00") = 0 :=
  ⟨duration_formula.1 (some "23:30") (some "00:15") 1410 15 (by decide)
      (by decide),
   duration_formula.2 (some "10:00")⟩

/-- Counterexample to claim C2: the malformed input "ab:cd" is not
treated as 0 by `parseTimeToMinutes`; it yields NaN. -/
theorem parseTimeToMinutes_malformed_not_zero :
    parseTimeToMinutes (some "ab:cd") = none ∧
    ¬ parseTimeToMinutes (some "ab:cd") = some 0 := by decide

/-- Claim C2 (amended): `parseTimeToMinutes` maps every well-formed
"HH:MM" string (two digits, colon, two digits) to the integer minutes
since midnight, and returns 0 for empty or undefined input; malformed
input is never an error but is not uniformly treated as 0 either:
pieces that convert to numbers — including empty pieces, which convert
to 0 (":" gives 0, "12:" gives 720) — still produce a number, while a
non-numeric piece makes the result NaN (e.g. "ab:cd"), which
`minutesBetween` downstream treats as 0. -/
theorem parseTimeToMinutes_contract :
    (∀ (hs ms : List Char) (hv mv : Nat),
        hs.length = 2 → ms.length = 2 →
        (∀ c ∈ hs, c.isDigit = true) → (∀ c ∈ ms, c.isDigit = true) →
        digitsToNat hs = some hv → digitsToNat ms = some mv →
        parseTimeToMinutes (some (String.mk (hs ++ ':' :: ms))) =
          some ((hv : Int) * 60 + (mv : Int))) ∧
    parseTimeToMinutes (some "14:35") = some 875 ∧
    parseTimeToMinutes (some "") = some 0 ∧
    parseTimeToMinutes none = some 0 ∧
    parseTimeToMinutes (some "ab:cd") = none ∧
    parseTimeToMinutes (some ":") = some 0 ∧
    parseTimeToMinutes (some "12:") = some 720 ∧
    minutesBetween (some "ab:cd") (some "09:00") = 0 := by
  refine ⟨?_, by decide, by decide, by decide, by decide, by decide,
    by decide, by decide⟩
  intro hs ms hv mv hl1 hl2 hdig1 hdig2 hd1 hd2
  have hne : String.mk (hs ++ ':' :: ms) ≠ "" := by
    intro h
    have h2 : hs ++ ':' :: ms = ([] : List Char) := congrArg String.data h
    simp at h2
  have hnc1 : ∀ c ∈ hs, c ≠ ':' := by
    intro c hc e
    have hcd := hdig1 c hc
    rw [e] at hcd
    exact absurd hcd (by decide)
  have hnc2 : ∀ c ∈ ms, c ≠ ':' := by
    intro c hc e
    have hcd := hdig2 c hc
    rw [e] at hcd
    exact absurd hcd (by decide)
  have hsplit : splitColon (hs ++ ':' :: ms) = [hs, ms] := by
    rw [splitColon_append hs ms hnc1, splitColon_eq_single ms hnc2]
  have hstep : parseTimeToMinutes (some (String.mk (hs ++ ':' :: ms))) =
      (match jsNumber ((splitColon (hs ++ ':' :: ms)).headD []),
        (match splitColon (hs ++ ':' :: ms) with
         | _ :: p2 :: _ => jsNumber p2
         | _ => none) with
       | some hv', some mv' => some (hv' * 60 + mv')
       | _, _ => none) := by
    simp only [parseTimeToMinutes]
    rw [if_neg hne]
  rw [hstep, hsplit]
  show (match jsNumber hs, jsNumber ms with
        | some hv', some mv' => some (hv' * 60 + mv')
        | _, _ => none) = some ((hv : Int) * 60 + (mv : Int))
  rw [jsNumber_of_digits hs hv hd1 hdig1, jsNumber_of_digits ms mv hd2 hdig2]

/-- Witness for C2 (amended): the universal well-formed clause applied
at the concrete digits of "14:35". -/
theorem parseTimeToMinutes_contract_witness :
    parseTimeToMinutes (some (String.mk (['1', '4'] ++ ':' :: ['3', '5']))) =
      some ((14 : Int) * 60 + (35 : Int)) :=
  parseTimeToMinutes_contract.1 ['1', '4'] ['3', '5'] 14 35 rfl rfl
    (by decide) (by decide) (by decide) (by decide)

/-- Claim C3: on every successful invoice create and every successful
invoice edit-save, the persisted totalCost equals the rounded product of
the persisted durationMinutes and ratePerMinute, so re-running the
billing computation on the record's own stored fields reproduces its
stored totalCost. -/
theorem totalCost_rederivable :
    (∀ (cid date : String) (st et : Option String) (rate : ℚ)
        (recv : Option ℚ) (inv : Invoice),
        invoiceFormSubmit (some cid) date st et rate recv = some inv →
        inv.totalCost =
          roundAbout ((inv.durationMinutes : ℚ) * inv.ratePerMinute)) ∧
    (∀ (date : String) (st et : Option String) (rate : Option ℚ)
        (recv : Option ℚ) (u : InvoiceUpdate),
        handleSave date st et rate recv = some u →
        u.totalCost =
          roundAbout ((u.durationMinutes : ℚ) * u.ratePerMinute)) := by
  constructor
  · intro cid date st et rate recv inv h
    simp only [invoiceFormSubmit, Option.some.injEq] at h
    subst h
    rfl
  · intro date st et rate recv u h
    cases rate with
    | none => simp [handleSave] at h
    | some r =>
      by_cases hr : r ≤ 0
      · simp [handleSave, hr] at h
      · simp only [handleSave, hr, if_neg, Option.some.injEq, if_false] at h
        subst h
        rfl

/-- Witness for C3 at Scenario A: a create of 08:00 to 09:00 at rate
16.666 persists totalCost 1000, which the stored fields re-derive. -/
theorem totalCost_rederivable_witness :
    scenarioAInvoice.totalCost =
      roundAbout
        ((scenarioAInvoice.durationMinutes : ℚ) *
          scenarioAInvoice.ratePerMinute) ∧
    scenarioAInvoice.totalCost = 1000 :=
  ⟨totalCost_rederivable.1 "c1" "2024-01-01" (some "08:00") (some "09:00")
      (16666 / 1000) (some 0) scenarioAInvoice scenarioA_create,
   rfl⟩

/-- Claim C4: on every successful invoice create and every successful
invoice edit-save, the persisted amountPending equals totalCost minus
amountReceived with no clamping to zero. -/
theorem amountPending_unclamped :
    (∀ (cid date : String) (st et : Option String) (rate : ℚ)
        (recv : Option ℚ) (inv : Invoice),
        invoiceFormSubmit (some cid) date st et rate recv = some inv →
        inv.amountPending = inv.totalCost - inv.amountReceived) ∧
    (∀ (date : String) (st et : Option String) (rate : Option ℚ)
        (recv : Option ℚ) (u : InvoiceUpdate),
        handleSave date st et rate recv = some u →
        u.amountPending = u.totalCost - u.amountReceived) := by
  constructor
  · intro cid date st et rate recv inv h
    simp only [invoiceFormSubmit, Option.some.injEq] at h
    subst h
    rfl
  · intro date st et rate recv u h
    cases rate with
    | none => simp [handleSave] at h
    | some r =>
      by_cases hr : r ≤ 0
      · simp [handleSave, hr] at h
      · simp only [handleSave, hr, if_neg, Option.some.injEq, if_false] at h
        subst h
        rfl

/-- Witness for C4 at Scenario D: totalCost 1000 with amountReceived
1200 persists amountPending -200, not 0. -/
theorem amountPending_unclamped_witness :
    scenarioDInvoice.amountPending =
      scenarioDInvoice.totalCost - scenarioDInvoice.amountReceived ∧
    scenarioDInvoice.amountPending = -200 :=
  ⟨amountPending_unclamped.1 "c1" "2024-01-01" (some "08:00") (some "09:00")
      (16666 / 1000) (some 1200) scenarioDInvoice scenarioD_create,
   rfl⟩

/-- Counterexample to claim C5: the create operation does not reject a
non-positive ratePerMinute — submitting with rate 0 writes a record
(with totalCost 0) instead of failing validation. -/
theorem create_accepts_nonpositive_rate :
    invoiceFormSubmit (some "c1") "2024-01-01" (some "08:00") (some "09:00")
      0 (some 0) =
    some ⟨"c1", "2024-01-01", some "08:00", some "09:00", 0, 60, 0, 0, 0⟩ := by
  have hm : minutesBetween (some "08:00") (some "09:00") = 60 := by decide
  simp only [invoiceFormSubmit, hm, roundAbout, Option.getD,
    Option.some.injEq, Invoice.mk.injEq]
  norm_num [Rat.floor_def']

/-- Claim C5 (amended): the invoice edit operation rejects the save with
a validation error when ratePerMinute is non-numeric or at most 0, while
the create operation performs no rate validation; in both operations a
non-numeric amountReceived is treated as 0 rather than rejected. -/
theorem rate_validation_contract :
    (∀ (date : String) (st et : Option String) (recv : Option ℚ),
        handleSave date st et none recv = none) ∧
    (∀ (date : String) (st et : Option String) (r : ℚ) (recv : Option ℚ),
        r ≤ 0 → handleSave date st et (some r) recv = none) ∧
    (∀ (cid date : String) (st et : Option String) (rate : ℚ)
        (inv : Invoice),
        invoiceFormSubmit (some cid) date st et rate none = some inv →
        inv.amountReceived = 0) ∧
    (∀ (date : String) (st et : Option String) (r : ℚ) (u : InvoiceUpdate),
        handleSave date st et (some r) none = some u →
        u.amountReceived = 0) := by
  refine ⟨fun _ _ _ _ => rfl, ?_, ?_, ?_⟩
  · intro date st et r recv hr
    simp [handleSave, hr]
  · intro cid date st et rate inv h
    simp only [invoiceFormSubmit, Option.some.injEq] at h
    subst h
    show roundAbout ((none : Option ℚ).getD 0) = 0
    norm_num [roundAbout, Rat.floor_def']
  · intro date st et r u h
    by_cases hr : r ≤ 0
    · simp [handleSave, hr] at h
    · simp only [handleSave, hr, if_neg, Option.some.injEq, if_false] at h
      subst h
      show roundAbout ((none : Option ℚ).getD 0) = 0
      norm_num [roundAbout, Rat.floor_def']

/-- Witness for C5 (amended): the edit rejects rate 0 on concrete
inputs, and a concrete create with a non-numeric received amount stores
amountReceived 0. -/
theorem rate_validation_contract_witness :
    handleSave "2024-01-01" (some "08:00") (some "09:00") (some 0)
      (some 0) = none ∧
    rate10Invoice.amountReceived = 0 :=
  ⟨rate_validation_contract.2.1 "2024-01-01" (some "08:00") (some "09:00")
      0 (some 0) (le_refl 0),
   rate_validation_contract.2.2.1 "c1" "2024-01-01" (some "08:00")
      (some "09:00") 10 rate10Invoice rate10_create⟩

/-- Claim C6: both invoice-writing operations — create and edit-save
(applied to a stored record by `updateInvoice`) — recompute
durationMinutes, totalCost and amountPending together from the same
inputs, so every record they write satisfies the mutual-consistency
invariant of the derived fields. -/
theorem derived_fields_recomputed_together :
    (∀ (cid date : String) (st et : Option String) (rate : ℚ)
        (recv : Option ℚ) (inv : Invoice),
        invoiceFormSubmit (some cid) date st et rate recv = some inv →
        derivedConsistent inv) ∧
    (∀ (date : String) (st et : Option String) (rate : Option ℚ)
        (recv : Option ℚ) (u : InvoiceUpdate),
        handleSave date st et rate recv = some u →
        updateConsistent u ∧
          ∀ old : Invoice, derivedConsistent (updateInvoice old u)) := by
  constructor
  · intro cid date st et rate recv inv h
    simp only [invoiceFormSubmit, Option.some.injEq] at h
    subst h
    exact ⟨rfl, rfl, rfl⟩
  · intro date st et rate recv u h
    cases rate with
    | none => simp [handleSave] at h
    | some r =>
      by_cases hr : r ≤ 0
      · simp [handleSave, hr] at h
      · simp only [handleSave, hr, if_neg, Option.some.injEq, if_false] at h
        subst h
        exact ⟨⟨rfl, rfl, rfl⟩, fun old => ⟨rfl, rfl, rfl⟩⟩

/-- Witness for C6: the Scenario A create produces a record whose
derived fields are mutually consistent. -/
theorem derived_fields_recomputed_together_witness :
    derivedConsistent scenarioAInvoice :=
  derived_fields_recomputed_together.1 "c1" "2024-01-01" (some "08:00")
    (some "09:00") (16666 / 1000) (some 0) scenarioAInvoice scenarioA_create

/-- Claim C7 at its failing input: deleting customer "c1" from a store
holding one invoice owned by "c1" removes the customer document but
leaves the invoice document in place, so an invoice owned by the deleted
customer remains after the confirmed delete. -/
theorem deleteCustomer_leaves_orphan_invoices :
    (deleteCustomer orphanStore "c1").customers = [] ∧
    (deleteCustomer orphanStore "c1").invoices.filter
        (fun i => i.customerId == "c1") = [⟨"i1", "c1"⟩] := by decide

/-- Counterexample to claim C8: importing a settings JSON whose only key
is outside the Settings schema writes that key into the stored settings
document — unknown keys are applied, not ignored. -/
theorem importSettings_applies_unknown_key :
    docGet
      (importSettings (some [("customKey", JVal.num 42)])
        [("ratePerMinute", JVal.num 16),
         ("businessName", JVal.str "Tubewell Water Supply")]).1
      "customKey" = some (JVal.num 42) := by decide

/-- Claim C8 (amended): settings import performs a shallow merge onto
the existing settings document — importing a JSON containing only
ratePerMinute leaves the prior businessName, businessContact and
businessAddress bindings unchanged and sets ratePerMinute — but keys
outside the Settings schema are not ignored: every key present in the
file, known or unknown, is written into the stored document. -/
theorem importSettings_shallow_merge :
    ∀ d : SettingsDoc,
      docGet (importSettings (some [("ratePerMinute", JVal.num 20)]) d).1
          "businessName" = docGet d "businessName" ∧
      docGet (importSettings (some [("ratePerMinute", JVal.num 20)]) d).1
          "businessContact" = docGet d "businessContact" ∧
      docGet (importSettings (some [("ratePerMinute", JVal.num 20)]) d).1
          "businessAddress" = docGet d "businessAddress" ∧
      docGet (importSettings (some [("ratePerMinute", JVal.num 20)]) d).1
          "ratePerMinute" = some (JVal.num 20) ∧
      ∀ (k : String) (v : JVal),
        docGet (importSettings (some [(k, v)]) d).1 k = some v := by
  intro d
  refine ⟨?_, ?_, ?_, ?_, ?_⟩
  · rw [show (importSettings (some [("ratePerMinute", JVal.num 20)]) d).1 =
        setMergeDoc d [("ratePerMinute", JVal.num 20)] from rfl,
      docGet_setMergeDoc]
    simp [docGet, List.find?]
  · rw [show (importSettings (some [("ratePerMinute", JVal.num 20)]) d).1 =
        setMergeDoc d [("ratePerMinute", JVal.num 20)] from rfl,
      docGet_setMergeDoc]
    simp [docGet, List.find?]
  · rw [show (importSettings (some [("ratePerMinute", JVal.num 20)]) d).1 =
        setMergeDoc d [("ratePerMinute", JVal.num 20)] from rfl,
      docGet_setMergeDoc]
    simp [docGet, List.find?]
  · rw [show (importSettings (some [("ratePerMinute", JVal.num 20)]) d).1 =
        setMergeDoc d [("ratePerMinute", JVal.num 20)] from rfl,
      docGet_setMergeDoc]
    simp [docGet, List.find?]
  · intro k v
    rw [show (importSettings (some [(k, v)]) d).1 =
        setMergeDoc d [(k, v)] from rfl,
      docGet_setMergeDoc]
    simp [docGet, List.find?]

/-- Claim C9: importing a malformed settings file leaves the stored
settings exactly as they were and reports the blocking alert "Invalid
settings file.". -/
theorem importSettings_malformed_no_change :
    ∀ stored : SettingsDoc,
      importSettings none stored = (stored, "Invalid settings file.") :=
  fun _ => rfl

/-- Witness for C9 at a concrete stored document. -/
theorem importSettings_malformed_no_change_witness :
    importSettings none [("businessName", JVal.str "Tubewell Water Supply")] =
      ([("businessName", JVal.str "Tubewell Water Supply")],
        "Invalid settings file.") :=
  importSettings_malformed_no_change
    [("businessName", JVal.str "Tubewell Water Supply")]

/-- Counterexample to claim C10: the string "Infinity:0" parses to
Infinity under JS `Number`, which passes the `isNaN` guard, and
`minutesBetween("Infinity:0", "Infinity:0")` computes
`Math.max(0, Infinity - Infinity)`, which is NaN — so the duration is
not "never NaN" over all string inputs. -/
theorem minutesBetweenJS_infinity_nan :
    minutesBetweenJS (some "Infinity:0") (some "Infinity:0") = JsNum.nan ∧
    parseTimeToMinutesJS (some "Infinity:0") = JsNum.posInf := by decide

/-- Claim C10 (amended): the duration calculation never produces a
negative number — whenever it returns a finite number that number is at
least 0 — and for every pair of inputs neither of which parses to an
infinity (in particular all empty, well-formed, or non-numeric time
strings, whose NaN parses the guard maps to 0) the result is a plain
nonnegative number; but an input that parses to Infinity escapes the
NaN guard and can make the result NaN or Infinity. -/
theorem minutesBetweenJS_safe :
    ∀ a b : Option String,
      (∀ n : Int, minutesBetweenJS a b = JsNum.int n → 0 ≤ n) ∧
      (parseTimeToMinutesJS a ≠ JsNum.posInf →
       parseTimeToMinutesJS a ≠ JsNum.negInf →
       parseTimeToMinutesJS b ≠ JsNum.posInf →
       parseTimeToMinutesJS b ≠ JsNum.negInf →
       ∃ n : Int, 0 ≤ n ∧ minutesBetweenJS a b = JsNum.int n) := by
  intro a b
  constructor
  · intro n h
    simp only [minutesBetweenJS] at h
    by_cases hg : (jsIsNaN (parseTimeToMinutesJS a) ||
        jsIsNaN (parseTimeToMinutesJS b)) = true
    · rw [if_pos hg] at h
      injection h with h
      omega
    · rw [if_neg hg] at h
      exact jsMax0_int_nonneg _ _ h
  · intro ha1 ha2 hb1 hb2
    cases ha : parseTimeToMinutesJS a with
    | posInf => exact absurd ha ha1
    | negInf => exact absurd ha ha2
    | nan =>
      exact ⟨0, le_refl 0, by simp [minutesBetweenJS, ha, jsIsNaN]⟩
    | int sv =>
      cases hb : parseTimeToMinutesJS b with
      | posInf => exact absurd hb hb1
      | negInf => exact absurd hb hb2
      | nan =>
        exact ⟨0, le_refl 0, by simp [minutesBetweenJS, ha, hb, jsIsNaN]⟩
      | int ev =>
        refine ⟨max 0 (if sv ≤ ev then ev - sv else ev + 24 * 60 - sv),
          le_max_left _ _, ?_⟩
        by_cases hc : sv ≤ ev
        · simp [minutesBetweenJS, ha, hb, jsIsNaN, jsGe, jsSub, jsAdd,
            jsMax0, hc]
        · simp [minutesBetweenJS, ha, hb, jsIsNaN, jsGe, jsSub, jsAdd,
            jsMax0, hc, not_le.mp hc]

/-- Witness for C10 (amended) at a malformed, NaN-parsing start
string paired with a well-formed end string. -/
theorem minutesBetweenJS_safe_witness :
    ∃ n : Int, 0 ≤ n ∧
      minutesBetweenJS (some "ab:cd") (some "09:00") = JsNum.int n :=
  (minutesBetweenJS_safe (some "ab:cd") (some "09:00")).2
    (by decide) (by decide) (by decide) (by decide)

end AquaBill
